import Mathlib

/-!
Verification of the realtime client session layer (phoenix adapter port).

The definitions below are shallow embeddings of the functions in
`src/packages/core/realtime-js/src/lib/phoenixAdapter.ts` (which also
contains the `RealtimeClient` class).  JS numbers are modelled as `Nat`
with the float64 increment behaviour made explicit where it matters
(`jsAddOne`), JS `string | null` values as `Option String`, and the
side-effecting socket / callback / timer interactions as explicit
effect lists produced by pure state-transition functions.
-/

namespace RealtimeSpec

/-! ### Ref generator (`RealtimeClient._makeRef`) -/

/-- JS number increment `this.ref + 1` restricted to the counter range
reachable from 0.  Float64 addition of 1 is exact for `0 ≤ n < 2 ^ 53`;
at `n = 2 ^ 53` the sum `2 ^ 53 + 1` rounds back to `2 ^ 53`
(round-to-nearest-even), which is exactly the `newRef === this.ref`
overflow case the source tests for.  States above `2 ^ 53` are not
reachable from the initial counter 0, so they are outside the model. -/
def jsAddOne (n : Nat) : Nat := if n = 2 ^ 53 then n else n + 1

/-- `RealtimeClient._makeRef`: `let newRef = this.ref + 1; if (newRef === this.ref)
this.ref = 0 else this.ref = newRef; return this.ref.toString()`.
Returns the new counter together with the returned string. -/
def makeRef (ref : Nat) : Nat × String :=
  let newRef := jsAddOne ref
  let ref2 := if newRef = ref then 0 else newRef
  (ref2, Nat.repr ref2)

/-! Decimal-representation theory needed to reason about the strings
`_makeRef` returns: `Nat.repr` is injective.  We relate core's
fuelled `Nat.toDigitsCore` to a structural digits function and prove a
round-trip through a decimal evaluator. -/

/-- Structural (fuel-free) counterpart of `Nat.toDigitsCore 10`. -/
def decDigits (n : Nat) : List Char :=
  if h : n / 10 = 0 then [Nat.digitChar (n % 10)]
  else decDigits (n / 10) ++ [Nat.digitChar (n % 10)]
termination_by n
decreasing_by
  simp_wf
  omega

/-- Decimal evaluator over the characters produced by `Nat.digitChar`. -/
def digitsVal (l : List Char) : Nat :=
  l.foldl (fun acc c => acc * 10 + (c.toNat - 48)) 0

lemma digitChar_toNat_sub (d : Nat) (h : d < 10) : (Nat.digitChar d).toNat - 48 = d := by
  interval_cases d <;> rfl

lemma toDigitsCore_eq_decDigits :
    ∀ (fuel n : Nat) (ds : List Char), n < fuel →
      Nat.toDigitsCore 10 fuel n ds = decDigits n ++ ds := by
  intro fuel
  induction fuel with
  | zero => intro n ds h; omega
  | succ f ih =>
    intro n ds h
    rw [Nat.toDigitsCore]
    by_cases h0 : n / 10 = 0
    · rw [decDigits]
      simp [h0]
    · have hlt : n / 10 < f := by omega
      rw [decDigits]
      simp only [h0, if_false, dif_neg h0]
      rw [ih (n / 10) (Nat.digitChar (n % 10) :: ds) hlt]
      simp

lemma repr_eq_decDigits (n : Nat) : Nat.repr n = (decDigits n).asString := by
  have h := toDigitsCore_eq_decDigits (n + 1) n [] (by omega)
  simp only [Nat.repr, Nat.toDigits, h, List.append_nil]

lemma digitsVal_append_digit (l : List Char) (c : Char) :
    digitsVal (l ++ [c]) = digitsVal l * 10 + (c.toNat - 48) := by
  simp [digitsVal, List.foldl_append]

lemma digitsVal_decDigits (n : Nat) : digitsVal (decDigits n) = n := by
  induction n using Nat.strong_induction_on with
  | _ n ih =>
    rw [decDigits]
    by_cases h0 : n / 10 = 0
    · have hn : n < 10 := by omega
      simp only [h0, dif_pos]
      simp [digitsVal, digitChar_toNat_sub (n % 10) (Nat.mod_lt n (by omega))]
      omega
    · have hlt : n / 10 < n := Nat.div_lt_self (by omega) (by omega)
      rw [dif_neg h0]
      rw [digitsVal_append_digit, ih (n / 10) hlt,
        digitChar_toNat_sub (n % 10) (Nat.mod_lt n (by omega))]
      omega

lemma asString_injective {l₁ l₂ : List Char} (h : l₁.asString = l₂.asString) : l₁ = l₂ :=
  congrArg String.data h

lemma nat_repr_injective {a b : Nat} (h : Nat.repr a = Nat.repr b) : a = b := by
  rw [repr_eq_decDigits, repr_eq_decDigits] at h
  have := asString_injective h
  calc a = digitsVal (decDigits a) := (digitsVal_decDigits a).symm
    _ = digitsVal (decDigits b) := by rw [this]
    _ = b := digitsVal_decDigits b

/-! ### Channel options and `translateRealtimeOptionsToChannelParams` -/

/-- Caller-supplied `config.broadcast` entry.  `Option` fields model JS
object keys that may be absent. -/
structure BroadcastConfig where
  ack : Option Bool := none
  self : Option Bool := none
deriving DecidableEq, Repr

/-- Caller-supplied `config.presence` entry. -/
structure PresenceConfig where
  key : Option String := none
  enabled : Option Bool := none
deriving DecidableEq, Repr

/-- The `config` object of `RealtimeChannelOptions`.  The source key
`private` is a Lean keyword, modelled as `isPrivate`. -/
structure ChannelConfig where
  broadcast : Option BroadcastConfig := none
  presence : Option PresenceConfig := none
  isPrivate : Option Bool := none
deriving DecidableEq, Repr

/-- `RealtimeChannelOptions` (the channel `params` object). -/
structure RealtimeChannelOptions where
  config : ChannelConfig := {}
deriving DecidableEq, Repr

/-- The defaults spread first in `translateRealtimeOptionsToChannelParams`:
`{ broadcast: { ack: false, self: false }, presence: { key: "", enabled: false },
private: false }`. -/
def defaultChannelConfig : ChannelConfig :=
  { broadcast := some { ack := some false, self := some false }
    presence := some { key := some "", enabled := some false }
    isPrivate := some false }

/-- `translateRealtimeOptionsToChannelParams`:
`options.config = { ...defaults, ...options.config }; return options`.
The object spread is shallow: a top-level key present on the caller
config replaces the whole default entry for that key. -/
def translateRealtimeOptionsToChannelParams (options : RealtimeChannelOptions) :
    RealtimeChannelOptions :=
  { options with
    config :=
      { broadcast := options.config.broadcast <|> defaultChannelConfig.broadcast
        presence := options.config.presence <|> defaultChannelConfig.presence
        isPrivate := options.config.isPrivate <|> defaultChannelConfig.isPrivate } }

/-- Reference-cell semantics of the same call: the source mutates the
caller-supplied `options` object in place and returns that very object.
The heap maps object references to option values; the function updates
the referenced cell and returns the same reference. -/
def translateOnHeap (heap : Nat → RealtimeChannelOptions) (r : Nat) :
    (Nat → RealtimeChannelOptions) × Nat :=
  (Function.update heap r (translateRealtimeOptionsToChannelParams (heap r)), r)

/-! ### Client state, effects, and the transition functions -/

/-- One registered channel session as the registry operations see it:
the namespaced topic, the params the session was created with, and an
id modelling JS object identity. -/
structure ChannelSession where
  id : Nat
  topic : String
  params : RealtimeChannelOptions
deriving DecidableEq, Repr

/-- `HeartbeatStatus` from the source. -/
inductive HeartbeatStatus
  | sent
  | ok
  | error
  | timeout
  | disconnected
deriving DecidableEq, Repr

/-- `RealtimeRemoveChannelResponse`: "ok" | "timed out" | "error". -/
inductive RemoveStatus
  | ok
  | timedOut
  | error
deriving DecidableEq, Repr

/-- `RealtimeMessage` (payload kept as a flat association list; the
heartbeat push uses the empty payload `{}`). -/
structure RealtimeMessage where
  topic : String
  event : String
  payload : List (String × String)
  ref : String
deriving DecidableEq, Repr

/-- Observable side effects of the client operations: heartbeat-callback
invocations, log lines, pushes and disconnect instructions to the
phoenix socket, timer scheduling. -/
inductive Effect
  | heartbeatCallbackInvoked (status : HeartbeatStatus)
  | log (kind msg : String)
  | socketPush (msg : RealtimeMessage)
  | socketDisconnect (code : Option Nat) (reason : Option String)
  | heartbeatFallbackScheduled (delayMs : Nat)
  | authRefreshKickoff (context : String)
  | reconnectScheduleTimeout
deriving DecidableEq, Repr

/-- The `RealtimeClient` fields the claims touch.  `connected` /
`disconnecting` mirror the transport state read through
`isConnected()` / `isDisconnecting()`. -/
structure ClientState where
  connected : Bool
  disconnecting : Bool
  pendingHeartbeatRef : Option String
  wasManualDisconnect : Bool
  ref : Nat
  accessTokenValue : Option String
  channels : List ChannelSession
  nextId : Nat
deriving DecidableEq, Repr

/-- `WS_CLOSE_NORMAL`.  Modelled from the spec: the constants module is
not under `src/`; this is the standard WebSocket normal-closure code.
No claim depends on its numeric value. -/
def wsCloseNormal : Nat := 1000

/-- `CONNECTION_TIMEOUTS.HEARTBEAT_TIMEOUT_FALLBACK` (source: 100 ms). -/
def heartbeatTimeoutFallbackMs : Nat := 100

/-- `RealtimeClient.disconnect(code?, reason?)`:
no-op when already disconnecting, otherwise instructs the socket to
close with the given code and reason.  Nothing else: in particular the
client state (and `_wasManualDisconnect`) is left untouched. -/
def disconnect (s : ClientState) (code : Option Nat) (reason : Option String) :
    ClientState × List Effect :=
  if s.disconnecting then (s, [])
  else (s, [Effect.socketDisconnect code reason])

/-- The `try { this.heartbeatCallback(st) } catch (e) { this.log(...) }`
pattern; `cbThrows` says for which statuses the user callback throws. -/
def reportHeartbeat (cbThrows : HeartbeatStatus → Bool) (st : HeartbeatStatus) : List Effect :=
  if cbThrows st then
    [Effect.heartbeatCallbackInvoked st, Effect.log "error" "error in heartbeat callback"]
  else
    [Effect.heartbeatCallbackInvoked st]

/-- `RealtimeClient.sendHeartbeat()`. -/
def sendHeartbeat (s : ClientState) (cbThrows : HeartbeatStatus → Bool) :
    ClientState × List Effect :=
  if ¬ s.connected then
    (s, reportHeartbeat cbThrows HeartbeatStatus.disconnected)
  else
    match s.pendingHeartbeatRef with
    | some _ =>
      ({ s with pendingHeartbeatRef := none, wasManualDisconnect := false },
        [Effect.log "transport" "heartbeat timeout. Attempting to re-establish connection"]
          ++ reportHeartbeat cbThrows HeartbeatStatus.timeout
          ++ [Effect.socketDisconnect (some wsCloseNormal) (some "heartbeat timeout"),
              Effect.heartbeatFallbackScheduled heartbeatTimeoutFallbackMs])
    | none =>
      let r := makeRef s.ref
      ({ s with ref := r.1, pendingHeartbeatRef := some r.2 },
        [Effect.socketPush { topic := "phoenix", event := "heartbeat", payload := [], ref := r.2 }]
          ++ reportHeartbeat cbThrows HeartbeatStatus.sent
          ++ [Effect.authRefreshKickoff "heartbeat"])

/-- The callback of the `setTimeout` scheduled in the heartbeat-timeout
branch: `if (!this.isConnected()) this.reconnectTimer?.scheduleTimeout()`,
evaluated against the client state at fire time. -/
def heartbeatTimeoutFallbackFire (s : ClientState) : List Effect :=
  if ¬ s.connected then [Effect.reconnectScheduleTimeout] else []

/-- `RealtimeClient.channel(topic, params)`: namespaces the topic,
returns the registered session when one with that topic exists
(ignoring the new params), otherwise constructs and registers a new
session. -/
def channel (s : ClientState) (topic : String) (params : RealtimeChannelOptions) :
    ClientState × ChannelSession :=
  let realtimeTopic := "realtime:" ++ topic
  match s.channels.find? (fun c => c.topic == realtimeTopic) with
  | some c => (s, c)
  | none =>
    let chan : ChannelSession := { id := s.nextId, topic := realtimeTopic, params := params }
    ({ s with channels := s.channels ++ [chan], nextId := s.nextId + 1 }, chan)

/-- `RealtimeClient._remove(channel)`:
`this.channels = this.channels.filter((c) => c.topic !== channel.topic)`. -/
def removeFromRegistry (s : ClientState) (ch : ChannelSession) : ClientState :=
  { s with channels := s.channels.filter (fun c => c.topic ≠ ch.topic) }

/-- Modelled from the spec: `RealtimeChannel.unsubscribe` lives in
`RealtimeChannel.ts`, which is not under `src/` (only its caller
`RealtimeClient` and the registry-removal helper `_remove` are).  Per
the spec, a Channel Session is "removed explicitly or implicitly when
the application unsubscribes", the leave acknowledgment is awaited, and
the call resolves with the leave status "ok" | "timed out" | "error"
regardless of the leave outcome (it never rejects, even on a
never-joined channel).  Modelled as: remove the session from the client
registry (via `removeFromRegistry`, the source's `_remove`) and resolve
with the transport-determined leave status, which is a parameter. -/
def unsubscribeModel (s : ClientState) (ch : ChannelSession) (leaveStatus : RemoveStatus) :
    ClientState × RemoveStatus :=
  (removeFromRegistry s ch, leaveStatus)

/-- `RealtimeClient.removeChannel(channel)`: awaits the unsubscribe,
then disconnects when the registry became empty, and returns the leave
status. -/
def removeChannel (s : ClientState) (ch : ChannelSession) (leaveStatus : RemoveStatus) :
    ClientState × RemoveStatus × List Effect :=
  let u := unsubscribeModel s ch leaveStatus
  if u.1.channels.length = 0 then
    let d := disconnect u.1 none none
    (d.1, u.2, d.2)
  else
    (u.1, u.2, [])

/-- State effect of one of the concurrently awaited unsubscribes in
`removeAllChannels` (see `unsubscribeModel`). -/
def unsubscribeFold (leaveOf : ChannelSession → RemoveStatus) (acc : ClientState)
    (ch : ChannelSession) : ClientState :=
  (unsubscribeModel acc ch (leaveOf ch)).1

/-- `RealtimeClient.removeAllChannels()`: awaits all unsubscribes
(each removing its own registry entry — spec-modelled, see
`unsubscribeModel`), then assigns `this.channels = []`, disconnects
unconditionally, and returns the statuses in original registration
order (`Promise.all` preserves the order of the mapped array). -/
def removeAllChannels (s : ClientState) (leaveOf : ChannelSession → RemoveStatus) :
    ClientState × List RemoveStatus × List Effect :=
  let statuses := s.channels.map (fun ch => (unsubscribeModel s ch (leaveOf ch)).2)
  let s1 := s.channels.foldl (unsubscribeFold leaveOf) s
  let s2 := { s1 with channels := [] }
  let d := disconnect s2 none none
  (d.1, statuses, d.2)

/-! ### `RealtimeClient._performAuth` -/

/-- `DEFAULT_VERSION`.  Modelled from the spec: the constants module is
not under `src/`; no claim depends on the value, only on the field
being set to it. -/
def DEFAULT_VERSION : String := "1.0.0"

/-- JS truthiness of a `string | null` value: `null` and the empty
string are falsy. -/
def isTruthy : Option String → Bool
  | none => false
  | some s => s ≠ ""

/-- The join payload `{ access_token: tokenToSend, version: DEFAULT_VERSION }`. -/
structure JoinPayload where
  accessToken : Option String
  version : String
deriving DecidableEq, Repr

/-- One channel as `_performAuth` sees it: whether its
`updateJoinPayload` has been called (and with what), which access
tokens were pushed on it, and whether its `push` throws (the source
notes it throws when pushing before a join). -/
structure AuthChannel where
  id : Nat
  joinPayload : Option JoinPayload
  pushedTokens : List (Option String)
  pushThrows : Bool
deriving DecidableEq, Repr

/-- The body of the `forEach` in `_performAuth` for one channel:
`tokenToSend && channel.updateJoinPayload(payload)` (the update is
guarded by JS truthiness of the token), then
`try { channel.phoenixChannel.push(...access_token...) } catch (e) { this.log(...) }`. -/
def authChannelStep (tokenToSend : Option String) (ch : AuthChannel) :
    AuthChannel × List Effect :=
  let payload : JoinPayload := { accessToken := tokenToSend, version := DEFAULT_VERSION }
  let ch1 := if isTruthy tokenToSend then { ch with joinPayload := some payload } else ch
  if ch1.pushThrows then
    (ch1, [Effect.log "auth" "error pushing access token"])
  else
    ({ ch1 with pushedTokens := ch1.pushedTokens ++ [tokenToSend] },
      [Effect.log "auth" "pushed access token"])

/-- The `RealtimeClient` fields `_performAuth` reads and writes.
`accessToken = some v` models a registered async token-provider
callback whose awaited result is `v`; `none` models no callback. -/
structure AuthState where
  accessTokenValue : Option String
  accessToken : Option (Option String)
  channels : List AuthChannel
deriving DecidableEq, Repr

/-- Token resolution at the top of `_performAuth`: `if (token) ... else
if (this.accessToken) ... else this.accessTokenValue`.  The first test
is JS truthiness of the argument. -/
def resolveTokenToSend (s : AuthState) (tokenArg : Option String) : Option String :=
  if isTruthy tokenArg then tokenArg
  else
    match s.accessToken with
    | some providerResult => providerResult
    | none => s.accessTokenValue

/-- Accumulating step of the sequential `forEach` over the channels in
`_performAuth`: thread the processed channels and the log stream. -/
def authLoopStep (tokenToSend : Option String) (acc : List AuthChannel × List Effect)
    (ch : AuthChannel) : List AuthChannel × List Effect :=
  let step := authChannelStep tokenToSend ch
  (acc.1 ++ [step.1], acc.2 ++ step.2)

/-- `RealtimeClient._performAuth(token)`.  The loose-inequality test
`this.accessTokenValue != tokenToSend` on `string | null` values
coincides with `Option` disequality.  The channel loop is the
sequential `forEach` threading the log stream. -/
def performAuth (s : AuthState) (tokenArg : Option String) : AuthState × List Effect :=
  let tokenToSend := resolveTokenToSend s tokenArg
  let logs0 := [Effect.log "auth" "performing auth"]
  if s.accessTokenValue ≠ tokenToSend then
    let r := s.channels.foldl (authLoopStep tokenToSend) ([], [])
    ({ s with accessTokenValue := tokenToSend, channels := r.1 }, logs0 ++ r.2)
  else
    (s, logs0)

/-! ### Overlapping `setAuth` calls (`RealtimeClient.setAuth`)

`setAuth` runs `this._authPromise = this._performAuth(token)` and then
`try { await this._authPromise } finally { this._authPromise = null }`.
For a call that resolves its token through the registered async
provider (the overlapping scenario named by the spec: one call from
`connect()`, one from the heartbeat), the JS event loop splits one call
into three atomic segments:

  segment 0 — runs synchronously at call time: `_performAuth` starts,
    invokes the token provider (`await this.accessToken()`), and the
    returned promise is stored in `this._authPromise`;
  segment 1 — the continuation after the provider resolves: compare the
    resolved token with `this.accessTokenValue` and, when different,
    store it and run the propagation pass over the channels;
  segment 2 — the `finally` of `setAuth` after its `await` completes:
    `this._authPromise = null`.

Two overlapping calls are any order-preserving interleaving of the two
calls' segment sequences. -/

/-- Auth-relevant state observed across overlapping `setAuth` calls,
with counters for provider invocations and propagation passes. -/
structure AuthOpState where
  accessTokenValue : Option String
  authPromise : Option Nat
  providerCalls : Nat
  propagationPasses : Nat
deriving DecidableEq, Repr

/-- One atomic segment of `setAuth` call `callId` (all calls resolve
the provider to `tok`); see the section comment for the split. -/
def authSegment (tok : Option String) (callId : Nat) (seg : Nat) (st : AuthOpState) :
    AuthOpState :=
  match seg with
  | 0 => { st with providerCalls := st.providerCalls + 1, authPromise := some callId }
  | 1 =>
    if st.accessTokenValue ≠ tok then
      { st with accessTokenValue := tok, propagationPasses := st.propagationPasses + 1 }
    else st
  | _ => { st with authPromise := none }

/-- Run an interleaving of two `setAuth` calls: `false` executes the
next pending segment of call 0, `true` of call 1. -/
def runAuthSchedule (tok : Option String) :
    List Bool → Nat → Nat → AuthOpState → AuthOpState
  | [], _, _, st => st
  | b :: rest, pc0, pc1, st =>
    if b then runAuthSchedule tok rest pc0 (pc1 + 1) (authSegment tok 1 pc1 st)
    else runAuthSchedule tok rest (pc0 + 1) pc1 (authSegment tok 0 pc0 st)

/-- All boolean lists of length `n`. -/
def allBoolLists : Nat → List (List Bool)
  | 0 => [[]]
  | n + 1 =>
    (allBoolLists n).map (fun l => false :: l) ++ (allBoolLists n).map (fun l => true :: l)

/-- Every interleaving of the three segments of two `setAuth` calls. -/
def twoCallSchedules : List (List Bool) :=
  (allBoolLists 6).filter (fun l => l.count true = 3)

/-- Client state before any auth pass: no stored token, no in-flight
operation. -/
def authOpInit : AuthOpState :=
  { accessTokenValue := none, authPromise := none, providerCalls := 0, propagationPasses := 0 }

/-! ### Helper lemmas -/

lemma find?_append_of_none {α : Type} {p : α → Bool} :
    ∀ {l₁ : List α} (l₂ : List α), l₁.find? p = none → (l₁ ++ l₂).find? p = l₂.find? p := by
  intro l₁
  induction l₁ with
  | nil => intro l₂ _; rfl
  | cons a t ih =>
    intro l₂ h
    cases hpa : p a with
    | true => rw [List.find?_cons_of_pos _ hpa] at h; exact absurd h (by simp)
    | false =>
      rw [List.find?_cons_of_neg _ (by simp [hpa])] at h
      rw [List.cons_append, List.find?_cons_of_neg _ (by simp [hpa])]
      exact ih l₂ h

lemma not_mem_topics_of_find?_none {l : List ChannelSession} {rt : String}
    (h : l.find? (fun c => c.topic == rt) = none) : rt ∉ l.map (fun c => c.topic) := by
  intro hmem
  rcases List.mem_map.mp hmem with ⟨c, hc, htc⟩
  have := List.find?_eq_none.mp h c hc
  simp [htc] at this

lemma foldl_unsubscribe_disconnecting (leaveOf : ChannelSession → RemoveStatus) :
    ∀ (l : List ChannelSession) (acc : ClientState),
      (l.foldl (unsubscribeFold leaveOf) acc).disconnecting = acc.disconnecting := by
  intro l
  induction l with
  | nil => intro acc; rfl
  | cons a t ih =>
    intro acc
    rw [List.foldl_cons, ih]
    rfl

lemma authLoop_acc (tok : Option String) :
    ∀ (l : List AuthChannel) (acc : List AuthChannel) (logs : List Effect),
      (l.foldl (authLoopStep tok) (acc, logs)).1
        = acc ++ l.map (fun ch => (authChannelStep tok ch).1) := by
  intro l
  induction l with
  | nil => intro acc logs; simp
  | cons a t ih =>
    intro acc logs
    rw [List.foldl_cons, authLoopStep, ih]
    simp

/-! ### Claim theorems -/

/-- C8: starting from counter 0, every `_makeRef` call increments the
counter by one and returns its decimal string, except at the float64
fixed point `2 ^ 53` where the counter resets to 0 and "0" is returned;
the new counter stays in the reachable range, and the returned string
always differs from the previous call's string (which was the decimal
form of the pre-call counter), so no two consecutive results are equal
and every result is the decimal form of a natural number (never
non-numeric or negative). -/
theorem makeRef_correct (n : Nat) (h : n ≤ 2 ^ 53) :
    (makeRef n).1 = (if n = 2 ^ 53 then 0 else n + 1) ∧
    (makeRef n).2 = Nat.repr (makeRef n).1 ∧
    (makeRef n).1 ≤ 2 ^ 53 ∧
    (makeRef n).2 ≠ Nat.repr n := by
  by_cases hn : n = 2 ^ 53
  · subst hn
    have e1 : makeRef (2 ^ 53) = (0, Nat.repr 0) := by
      simp [makeRef, jsAddOne]
    rw [e1, if_pos rfl]
    refine ⟨rfl, rfl, Nat.zero_le _, ?_⟩
    intro hrepr
    have h0 : (0 : Nat) = 2 ^ 53 := nat_repr_injective hrepr
    exact absurd h0.symm (Nat.pos_iff_ne_zero.mp (Nat.pos_pow_of_pos 53 (by norm_num)))
  · have hne : n + 1 ≠ n := by omega
    have e1 : makeRef n = (n + 1, Nat.repr (n + 1)) := by
      simp only [makeRef, jsAddOne, if_neg hn, if_neg hne]
    rw [e1, if_neg hn]
    refine ⟨rfl, rfl, Nat.succ_le_of_lt (Nat.lt_of_le_of_ne h hn), ?_⟩
    intro hrepr
    exact hne (nat_repr_injective hrepr)

/-- Witness for C8 at the concrete counter 5. -/
theorem makeRef_correct_witness :
    (5 : Nat) ≤ 2 ^ 53 ∧
    ((makeRef 5).1 = (if (5 : Nat) = 2 ^ 53 then 0 else 5 + 1) ∧
      (makeRef 5).2 = Nat.repr (makeRef 5).1 ∧
      (makeRef 5).1 ≤ 2 ^ 53 ∧
      (makeRef 5).2 ≠ Nat.repr 5) :=
  ⟨by norm_num, makeRef_correct 5 (by norm_num)⟩

/-- C7: two `channel` calls with the same topic return the identical
session object (the second call's options are ignored and the registry
is unchanged), lookup is by the namespaced topic "realtime:" + t, and
registering through `channel` never introduces a duplicate topic. -/
theorem channel_idempotent_dedup (s : ClientState) (t : String)
    (p1 p2 : RealtimeChannelOptions) :
    (channel (channel s t p1).1 t p2).2 = (channel s t p1).2 ∧
    (channel (channel s t p1).1 t p2).1 = (channel s t p1).1 ∧
    ((channel s t p1).2.topic = "realtime:" ++ t ∨
      (channel s t p1).2 ∈ s.channels) ∧
    ((s.channels.map (fun c => c.topic)).Nodup →
      ((channel s t p1).1.channels.map (fun c => c.topic)).Nodup) := by
  cases hfind : s.channels.find? (fun c => c.topic == ("realtime:" ++ t)) with
  | some c =>
    have h1 : channel s t p1 = (s, c) := by
      simp only [channel, hfind]
    have h2 : channel s t p2 = (s, c) := by
      simp only [channel, hfind]
    refine ⟨?_, ?_, ?_, ?_⟩
    · rw [h1]; exact congrArg Prod.snd h2
    · rw [h1]; exact congrArg Prod.fst h2
    · rw [h1]
      exact Or.inr (List.mem_of_find?_eq_some hfind)
    · rw [h1]
      exact id
  | none =>
    have h1 : channel s t p1 =
        ({ s with
            channels := s.channels ++
              [{ id := s.nextId, topic := "realtime:" ++ t, params := p1 }],
            nextId := s.nextId + 1 },
          { id := s.nextId, topic := "realtime:" ++ t, params := p1 }) := by
      simp only [channel, hfind]
    have hfind2 :
        (s.channels ++
            ([{ id := s.nextId, topic := "realtime:" ++ t, params := p1 }] :
              List ChannelSession)).find?
          (fun c : ChannelSession => c.topic == ("realtime:" ++ t)) =
          some { id := s.nextId, topic := "realtime:" ++ t, params := p1 } := by
      rw [find?_append_of_none _ hfind]
      simp [List.find?]
    refine ⟨?_, ?_, ?_, ?_⟩
    · rw [h1]
      simp only [channel, hfind2]
    · rw [h1]
      simp only [channel, hfind2]
    · rw [h1]
      exact Or.inl rfl
    · intro hnodup
      rw [h1]
      simp only [List.map_append, List.map_cons, List.map_nil]
      rw [List.nodup_append]
      exact ⟨hnodup, List.nodup_singleton _,
        by
          intro a ha hb
          simp only [List.mem_singleton] at hb
          subst hb
          exact not_mem_topics_of_find?_none hfind ha⟩

/-- Witness for C7: a client with one registered channel, calling
`channel "room"` twice. -/
theorem channel_idempotent_dedup_witness :
    ((fun s : ClientState =>
      (channel (channel s "room" {}).1 "room" { config := { isPrivate := some true } }).2
          = (channel s "room" {}).2 ∧
      (channel (channel s "room" {}).1 "room" { config := { isPrivate := some true } }).1
          = (channel s "room" {}).1 ∧
      ((channel s "room" {}).2.topic = "realtime:" ++ "room" ∨
        (channel s "room" {}).2 ∈ s.channels) ∧
      ((s.channels.map (fun c => c.topic)).Nodup →
        ((channel s "room" {}).1.channels.map (fun c => c.topic)).Nodup))
    { connected := false, disconnecting := false, pendingHeartbeatRef := none,
      wasManualDisconnect := false, ref := 0, accessTokenValue := none,
      channels := [{ id := 0, topic := "realtime:lobby", params := {} }], nextId := 1 }) :=
  channel_idempotent_dedup
    { connected := false, disconnecting := false, pendingHeartbeatRef := none,
      wasManualDisconnect := false, ref := 0, accessTokenValue := none,
      channels := [{ id := 0, topic := "realtime:lobby", params := {} }], nextId := 1 }
    "room" {} { config := { isPrivate := some true } }

/-- C5: `sendHeartbeat()` on a disconnected client reports
"disconnected" through the heartbeat callback, pushes no message, and
leaves the whole client state (pending ref, ref counter, stored token,
everything) unchanged — even when the user callback throws. -/
theorem sendHeartbeat_disconnected_frame (s : ClientState) (cb : HeartbeatStatus → Bool)
    (h : s.connected = false) :
    (sendHeartbeat s cb).1 = s ∧
    Effect.heartbeatCallbackInvoked HeartbeatStatus.disconnected ∈ (sendHeartbeat s cb).2 ∧
    (∀ m : RealtimeMessage, Effect.socketPush m ∉ (sendHeartbeat s cb).2) ∧
    (sendHeartbeat s cb).1.pendingHeartbeatRef = s.pendingHeartbeatRef ∧
    (sendHeartbeat s cb).1.ref = s.ref ∧
    (sendHeartbeat s cb).1.accessTokenValue = s.accessTokenValue := by
  have e1 : sendHeartbeat s cb = (s, reportHeartbeat cb HeartbeatStatus.disconnected) := by
    simp [sendHeartbeat, h]
  rw [e1]
  refine ⟨rfl, ?_, ?_, rfl, rfl, rfl⟩
  · by_cases hcb : cb HeartbeatStatus.disconnected <;> simp [reportHeartbeat, hcb]
  · intro m
    by_cases hcb : cb HeartbeatStatus.disconnected <;> simp [reportHeartbeat, hcb]

/-- Witness for C5 at a concrete disconnected client whose callback
throws. -/
theorem sendHeartbeat_disconnected_frame_witness :
    ((fun (s : ClientState) (cb : HeartbeatStatus → Bool) =>
      (sendHeartbeat s cb).1 = s ∧
      Effect.heartbeatCallbackInvoked HeartbeatStatus.disconnected ∈ (sendHeartbeat s cb).2 ∧
      (∀ m : RealtimeMessage, Effect.socketPush m ∉ (sendHeartbeat s cb).2) ∧
      (sendHeartbeat s cb).1.pendingHeartbeatRef = s.pendingHeartbeatRef ∧
      (sendHeartbeat s cb).1.ref = s.ref ∧
      (sendHeartbeat s cb).1.accessTokenValue = s.accessTokenValue)
    { connected := false, disconnecting := false, pendingHeartbeatRef := some "3",
      wasManualDisconnect := false, ref := 3, accessTokenValue := some "tok",
      channels := [], nextId := 0 }
    (fun _ => true)) :=
  sendHeartbeat_disconnected_frame
    { connected := false, disconnecting := false, pendingHeartbeatRef := some "3",
      wasManualDisconnect := false, ref := 3, accessTokenValue := some "tok",
      channels := [], nextId := 0 }
    (fun _ => true) rfl

/-- C4: `sendHeartbeat()` on a connected client with a pending
heartbeat ref clears the ref, reports "timeout", leaves the
manual-disconnect flag false, instructs the transport to force-close,
and schedules the fixed-delay fallback whose firing triggers the
reconnect timer's immediate timeout exactly when the client is still
not connected; a later `sendHeartbeat()` once reconnected with the ref
cleared reports "sent" and not "timeout". -/
theorem sendHeartbeat_timeout_path (s : ClientState) (cb : HeartbeatStatus → Bool)
    (r : String) (hc : s.connected = true) (hp : s.pendingHeartbeatRef = some r) :
    (sendHeartbeat s cb).1.pendingHeartbeatRef = none ∧
    Effect.heartbeatCallbackInvoked HeartbeatStatus.timeout ∈ (sendHeartbeat s cb).2 ∧
    (sendHeartbeat s cb).1.wasManualDisconnect = false ∧
    Effect.socketDisconnect (some wsCloseNormal) (some "heartbeat timeout")
      ∈ (sendHeartbeat s cb).2 ∧
    Effect.heartbeatFallbackScheduled heartbeatTimeoutFallbackMs ∈ (sendHeartbeat s cb).2 ∧
    (∀ s₂ : ClientState, s₂.connected = true → heartbeatTimeoutFallbackFire s₂ = []) ∧
    (∀ s₂ : ClientState, s₂.connected = false →
      heartbeatTimeoutFallbackFire s₂ = [Effect.reconnectScheduleTimeout]) ∧
    (∀ (s₃ : ClientState) (cb₃ : HeartbeatStatus → Bool),
      s₃.connected = true → s₃.pendingHeartbeatRef = none →
      Effect.heartbeatCallbackInvoked HeartbeatStatus.sent ∈ (sendHeartbeat s₃ cb₃).2 ∧
      Effect.heartbeatCallbackInvoked HeartbeatStatus.timeout ∉ (sendHeartbeat s₃ cb₃).2) := by
  have e1 : sendHeartbeat s cb =
      ({ s with pendingHeartbeatRef := none, wasManualDisconnect := false },
        [Effect.log "transport" "heartbeat timeout. Attempting to re-establish connection"]
          ++ reportHeartbeat cb HeartbeatStatus.timeout
          ++ [Effect.socketDisconnect (some wsCloseNormal) (some "heartbeat timeout"),
              Effect.heartbeatFallbackScheduled heartbeatTimeoutFallbackMs]) := by
    simp [sendHeartbeat, hc, hp]
  refine ⟨by rw [e1], ?_, by rw [e1], ?_, ?_, ?_, ?_, ?_⟩
  · rw [e1]
    by_cases hcb : cb HeartbeatStatus.timeout <;> simp [reportHeartbeat, hcb]
  · rw [e1]
    by_cases hcb : cb HeartbeatStatus.timeout <;> simp [reportHeartbeat, hcb]
  · rw [e1]
    by_cases hcb : cb HeartbeatStatus.timeout <;> simp [reportHeartbeat, hcb]
  · intro s₂ h₂
    simp [heartbeatTimeoutFallbackFire, h₂]
  · intro s₂ h₂
    simp [heartbeatTimeoutFallbackFire, h₂]
  · intro s₃ cb₃ hc₃ hp₃
    have e3 : sendHeartbeat s₃ cb₃ =
        ({ s₃ with ref := (makeRef s₃.ref).1, pendingHeartbeatRef := some (makeRef s₃.ref).2 },
          [Effect.socketPush
              { topic := "phoenix", event := "heartbeat", payload := [],
                ref := (makeRef s₃.ref).2 }]
            ++ reportHeartbeat cb₃ HeartbeatStatus.sent
            ++ [Effect.authRefreshKickoff "heartbeat"]) := by
      simp [sendHeartbeat, hc₃, hp₃]
    rw [e3]
    constructor
    · by_cases hcb : cb₃ HeartbeatStatus.sent <;> simp [reportHeartbeat, hcb]
    · by_cases hcb : cb₃ HeartbeatStatus.sent <;> simp [reportHeartbeat, hcb]

/-- Witness for C4 at a concrete connected client with pending ref "1". -/
theorem sendHeartbeat_timeout_path_witness :
    ((fun (s : ClientState) (cb : HeartbeatStatus → Bool) =>
      (sendHeartbeat s cb).1.pendingHeartbeatRef = none ∧
      Effect.heartbeatCallbackInvoked HeartbeatStatus.timeout ∈ (sendHeartbeat s cb).2 ∧
      (sendHeartbeat s cb).1.wasManualDisconnect = false ∧
      Effect.socketDisconnect (some wsCloseNormal) (some "heartbeat timeout")
        ∈ (sendHeartbeat s cb).2 ∧
      Effect.heartbeatFallbackScheduled heartbeatTimeoutFallbackMs ∈ (sendHeartbeat s cb).2 ∧
      (∀ s₂ : ClientState, s₂.connected = true → heartbeatTimeoutFallbackFire s₂ = []) ∧
      (∀ s₂ : ClientState, s₂.connected = false →
        heartbeatTimeoutFallbackFire s₂ = [Effect.reconnectScheduleTimeout]) ∧
      (∀ (s₃ : ClientState) (cb₃ : HeartbeatStatus → Bool),
        s₃.connected = true → s₃.pendingHeartbeatRef = none →
        Effect.heartbeatCallbackInvoked HeartbeatStatus.sent ∈ (sendHeartbeat s₃ cb₃).2 ∧
        Effect.heartbeatCallbackInvoked HeartbeatStatus.timeout ∉ (sendHeartbeat s₃ cb₃).2))
    { connected := true, disconnecting := false, pendingHeartbeatRef := some "1",
      wasManualDisconnect := false, ref := 1, accessTokenValue := none,
      channels := [], nextId := 0 }
    (fun _ => false)) :=
  sendHeartbeat_timeout_path
    { connected := true, disconnecting := false, pendingHeartbeatRef := some "1",
      wasManualDisconnect := false, ref := 1, accessTokenValue := none,
      channels := [], nextId := 0 }
    (fun _ => false) "1" rfl rfl

/-- C3: `removeChannel(ch)` removes `ch` from the registry regardless
of the leave outcome, returns the leave status, and issues the
transport-close instruction exactly when the registry is empty
afterwards (stated for a client that is not already disconnecting, so
the inner `disconnect()` call is observable). -/
theorem removeChannel_correct (s : ClientState) (ch : ChannelSession) (l : RemoveStatus)
    (hd : s.disconnecting = false) :
    (removeChannel s ch l).1.channels
      = s.channels.filter (fun c => c.topic ≠ ch.topic) ∧
    (removeChannel s ch l).2.1 = l ∧
    ((removeChannel s ch l).2.2
      = if s.channels.filter (fun c => c.topic ≠ ch.topic) = []
        then [Effect.socketDisconnect none none] else []) ∧
    ((removeChannel s ch l).2.2 ≠ [] ↔
      s.channels.filter (fun c => c.topic ≠ ch.topic) = []) := by
  have hdisc : disconnect
      { s with channels := s.channels.filter (fun c => c.topic ≠ ch.topic) } none none
      = ({ s with channels := s.channels.filter (fun c => c.topic ≠ ch.topic) },
          [Effect.socketDisconnect none none]) := by
    simp [disconnect, hd]
  by_cases hc : (s.channels.filter (fun c => c.topic ≠ ch.topic)).length = 0
  · have hnil : s.channels.filter (fun c => c.topic ≠ ch.topic) = [] :=
      List.length_eq_zero.mp hc
    have e1 : removeChannel s ch l
        = ({ s with channels := s.channels.filter (fun c => c.topic ≠ ch.topic) }, l,
            [Effect.socketDisconnect none none]) := by
      simp only [removeChannel, unsubscribeModel, removeFromRegistry]
      rw [if_pos hc, hdisc]
    rw [e1]
    refine ⟨rfl, rfl, ?_, ?_⟩
    · rw [if_pos hnil]
    · exact ⟨fun _ => hnil, fun _ => by simp⟩
  · have hnnil : s.channels.filter (fun c => c.topic ≠ ch.topic) ≠ [] := by
      intro hx
      exact hc (by rw [hx]; rfl)
    have e1 : removeChannel s ch l
        = ({ s with channels := s.channels.filter (fun c => c.topic ≠ ch.topic) }, l, []) := by
      simp only [removeChannel, unsubscribeModel, removeFromRegistry]
      rw [if_neg hc]
    rw [e1]
    refine ⟨rfl, rfl, ?_, ?_⟩
    · rw [if_neg hnnil]
    · exact ⟨fun hx => absurd rfl hx, fun hx => absurd hx hnnil⟩

/-- Witness for C3: removing the last remaining channel empties the
registry and issues the disconnect; removing one of two channels does
not. -/
theorem removeChannel_correct_witness :
    ((fun (s : ClientState) (ch : ChannelSession) (l : RemoveStatus) =>
      (removeChannel s ch l).1.channels
        = s.channels.filter (fun c => c.topic ≠ ch.topic) ∧
      (removeChannel s ch l).2.1 = l ∧
      ((removeChannel s ch l).2.2
        = if s.channels.filter (fun c => c.topic ≠ ch.topic) = []
          then [Effect.socketDisconnect none none] else []) ∧
      ((removeChannel s ch l).2.2 ≠ [] ↔
        s.channels.filter (fun c => c.topic ≠ ch.topic) = []))
    { connected := true, disconnecting := false, pendingHeartbeatRef := none,
      wasManualDisconnect := false, ref := 0, accessTokenValue := none,
      channels := [{ id := 0, topic := "realtime:lobby", params := {} }], nextId := 1 }
    { id := 0, topic := "realtime:lobby", params := {} }
    RemoveStatus.timedOut) :=
  removeChannel_correct
    { connected := true, disconnecting := false, pendingHeartbeatRef := none,
      wasManualDisconnect := false, ref := 0, accessTokenValue := none,
      channels := [{ id := 0, topic := "realtime:lobby", params := {} }], nextId := 1 }
    { id := 0, topic := "realtime:lobby", params := {} }
    RemoveStatus.timedOut rfl

/-- C9: `removeAllChannels()` resolves the unsubscribe of every
registered channel, clears the registry, disconnects unconditionally,
and returns the per-channel leave statuses in the channels' original
registration order (stated for a client that is not already
disconnecting, so the disconnect instruction is observable; the model
never throws by construction, matching the spec-modelled unsubscribe
that always resolves with a status). -/
theorem removeAllChannels_correct (s : ClientState)
    (leaveOf : ChannelSession → RemoveStatus) (hd : s.disconnecting = false) :
    (removeAllChannels s leaveOf).1.channels = [] ∧
    (removeAllChannels s leaveOf).2.1 = s.channels.map leaveOf ∧
    (removeAllChannels s leaveOf).2.2 = [Effect.socketDisconnect none none] := by
  have hdisc : (s.channels.foldl (unsubscribeFold leaveOf) s).disconnecting = false := by
    rw [foldl_unsubscribe_disconnecting]
    exact hd
  refine ⟨?_, ?_, ?_⟩
  · simp [removeAllChannels, disconnect, hdisc]
  · simp [removeAllChannels, unsubscribeModel, disconnect, hdisc]
  · simp [removeAllChannels, disconnect, hdisc]

/-- Witness for C9, the spec scenario: a client constructed with just
an API key, one channel "lobby" created and never joined, never
connected — `removeAllChannels` resolves with exactly one status,
leaves the registry empty, and disconnects. -/
theorem removeAllChannels_correct_witness :
    ((fun (s : ClientState) (leaveOf : ChannelSession → RemoveStatus) =>
      (removeAllChannels s leaveOf).1.channels = [] ∧
      (removeAllChannels s leaveOf).2.1 = s.channels.map leaveOf ∧
      (removeAllChannels s leaveOf).2.2 = [Effect.socketDisconnect none none])
    { connected := false, disconnecting := false, pendingHeartbeatRef := none,
      wasManualDisconnect := false, ref := 0, accessTokenValue := none,
      channels := [{ id := 0, topic := "realtime:lobby", params := {} }], nextId := 1 }
    (fun _ => RemoveStatus.ok)) :=
  removeAllChannels_correct
    { connected := false, disconnecting := false, pendingHeartbeatRef := none,
      wasManualDisconnect := false, ref := 0, accessTokenValue := none,
      channels := [{ id := 0, topic := "realtime:lobby", params := {} }], nextId := 1 }
    (fun _ => RemoveStatus.ok) rfl

/-- C2 (failing input): `disconnect(1000, "bye")` on a client that is
not already disconnecting does instruct the transport to close with the
given code and reason, but the client state is left entirely unchanged:
in particular `_wasManualDisconnect` stays `false`, so nothing
suppresses the reconnection scheduler before the next `connect()` —
contradicting the claim that the disconnect is marked as manual. -/
theorem disconnect_does_not_mark_manual :
    (disconnect
        { connected := true, disconnecting := false, pendingHeartbeatRef := none,
          wasManualDisconnect := false, ref := 0, accessTokenValue := none,
          channels := [], nextId := 0 }
        (some 1000) (some "bye")).2
      = [Effect.socketDisconnect (some 1000) (some "bye")] ∧
    (disconnect
        { connected := true, disconnecting := false, pendingHeartbeatRef := none,
          wasManualDisconnect := false, ref := 0, accessTokenValue := none,
          channels := [], nextId := 0 }
        (some 1000) (some "bye")).1.wasManualDisconnect = false ∧
    (∀ (s : ClientState) (code : Option Nat) (reason : Option String),
      (disconnect s code reason).1 = s) := by
  refine ⟨rfl, rfl, ?_⟩
  intro s code reason
  simp only [disconnect]
  by_cases hd : s.disconnecting <;> simp [hd]

/-- C1 counterexample: two overlapping `setAuth` calls (the second
issued right after the first stored its in-flight operation, before it
settled) invoke the token provider twice, not once — each call starts
its own `_performAuth` instead of attaching to the stored operation. -/
theorem setAuth_overlap_counterexample :
    (runAuthSchedule (some "fresh") [false, true, false, false, true, true] 0 0
      authOpInit).providerCalls = 2 ∧
    ¬ ((runAuthSchedule (some "fresh") [false, true, false, false, true, true] 0 0
      authOpInit).providerCalls = 1) := by
  decide

/-- C1 (amended): in every interleaving of two overlapping `setAuth`
calls that resolve the provider to the same fresh token, the token
provider is invoked exactly twice (once per call, because each call
starts its own `_performAuth` rather than attaching to the stored one);
exactly one propagation pass still occurs, because the later pass finds
the stored token already equal and skips the channels; and after both
calls settle the stored in-flight handle has been cleared by the
`finally` cleanup. -/
theorem setAuth_overlap_amended :
    ∀ sched ∈ twoCallSchedules,
      (runAuthSchedule (some "fresh") sched 0 0 authOpInit).providerCalls = 2 ∧
      (runAuthSchedule (some "fresh") sched 0 0 authOpInit).propagationPasses = 1 ∧
      (runAuthSchedule (some "fresh") sched 0 0 authOpInit).authPromise = none := by
  decide

/-- Witness for C1 (amended) at one concrete overlapping schedule. -/
theorem setAuth_overlap_amended_witness :
    [false, true, true, false, false, true] ∈ twoCallSchedules ∧
    ((runAuthSchedule (some "fresh") [false, true, true, false, false, true] 0 0
        authOpInit).providerCalls = 2 ∧
      (runAuthSchedule (some "fresh") [false, true, true, false, false, true] 0 0
        authOpInit).propagationPasses = 1 ∧
      (runAuthSchedule (some "fresh") [false, true, true, false, false, true] 0 0
        authOpInit).authPromise = none) :=
  ⟨by decide, setAuth_overlap_amended [false, true, true, false, false, true] (by decide)⟩

/-- C6 counterexample: an auth pass where the provider resolves the
token to `null` while the stored token is "old".  The resolved token
differs from the stored one, the pass runs (the stored token is updated
and the auth-update message is pushed on the channel), yet the
channel's join payload is NOT updated — `tokenToSend &&
channel.updateJoinPayload(payload)` skips the update for a falsy
token, refuting the claim that every such pass updates the join
payload. -/
theorem performAuth_counterexample :
    resolveTokenToSend
        { accessTokenValue := some "old", accessToken := some none,
          channels := [{ id := 0, joinPayload := none, pushedTokens := [], pushThrows := false }] }
        none = none ∧
    (performAuth
        { accessTokenValue := some "old", accessToken := some none,
          channels := [{ id := 0, joinPayload := none, pushedTokens := [], pushThrows := false }] }
        none).1.accessTokenValue = none ∧
    ((performAuth
        { accessTokenValue := some "old", accessToken := some none,
          channels := [{ id := 0, joinPayload := none, pushedTokens := [], pushThrows := false }] }
        none).1.channels.map (fun c => c.pushedTokens)) = [[none]] ∧
    ((performAuth
        { accessTokenValue := some "old", accessToken := some none,
          channels := [{ id := 0, joinPayload := none, pushedTokens := [], pushThrows := false }] }
        none).1.channels.map (fun c => c.joinPayload)) = [none] := by
  decide

/-- C6 (amended): when the resolved token differs from the stored one,
the stored token is updated and every channel in registration order is
processed independently — the channel list becomes the pointwise map of
the per-channel step, so one channel's push failure cannot affect any
other channel; per channel, the join payload is updated with
(access_token, version) exactly when the resolved token is truthy
(non-null, non-empty), and the auth-update push is recorded exactly
when that channel's push does not throw (a throwing push is caught and
logged).  When the resolved token equals the stored one, the state is
untouched. -/
theorem performAuth_amended (s : AuthState) (tokenArg : Option String) (ch : AuthChannel) :
    (resolveTokenToSend s tokenArg ≠ s.accessTokenValue →
      (performAuth s tokenArg).1.accessTokenValue = resolveTokenToSend s tokenArg ∧
      (performAuth s tokenArg).1.channels
        = s.channels.map (fun c => (authChannelStep (resolveTokenToSend s tokenArg) c).1)) ∧
    (resolveTokenToSend s tokenArg = s.accessTokenValue → (performAuth s tokenArg).1 = s) ∧
    ((authChannelStep (resolveTokenToSend s tokenArg) ch).1.joinPayload
      = if isTruthy (resolveTokenToSend s tokenArg) then
          some { accessToken := resolveTokenToSend s tokenArg, version := DEFAULT_VERSION }
        else ch.joinPayload) ∧
    ((authChannelStep (resolveTokenToSend s tokenArg) ch).1.pushedTokens
      = if ch.pushThrows then ch.pushedTokens
        else ch.pushedTokens ++ [resolveTokenToSend s tokenArg]) := by
  refine ⟨?_, ?_, ?_, ?_⟩
  · intro hne
    have hne2 : s.accessTokenValue ≠ resolveTokenToSend s tokenArg := Ne.symm hne
    have e1 : performAuth s tokenArg
        = (({ s with
              accessTokenValue := resolveTokenToSend s tokenArg
              channels := (s.channels.foldl
                (authLoopStep (resolveTokenToSend s tokenArg)) ([], [])).1 } : AuthState),
            [Effect.log "auth" "performing auth"]
              ++ (s.channels.foldl
                (authLoopStep (resolveTokenToSend s tokenArg)) ([], [])).2) := by
      simp only [performAuth]
      rw [if_pos hne2]
    rw [e1]
    exact ⟨rfl, by rw [authLoop_acc]; simp⟩
  · intro heq
    have e1 : performAuth s tokenArg = (s, [Effect.log "auth" "performing auth"]) := by
      simp only [performAuth]
      rw [if_neg (fun hx => hx heq.symm)]
    rw [e1]
  · by_cases ht : isTruthy (resolveTokenToSend s tokenArg) <;>
      by_cases hp : ch.pushThrows <;>
      simp [authChannelStep, ht, hp]
  · by_cases ht : isTruthy (resolveTokenToSend s tokenArg) <;>
      by_cases hp : ch.pushThrows <;>
      simp [authChannelStep, ht, hp]

/-- Witness for C6 (amended) at a concrete state with two channels, the
first of which throws on push, a stored token "old" and argument token
"new". -/
theorem performAuth_amended_witness :
    ((fun (s : AuthState) (tokenArg : Option String) (ch : AuthChannel) =>
      (resolveTokenToSend s tokenArg ≠ s.accessTokenValue →
        (performAuth s tokenArg).1.accessTokenValue = resolveTokenToSend s tokenArg ∧
        (performAuth s tokenArg).1.channels
          = s.channels.map (fun c => (authChannelStep (resolveTokenToSend s tokenArg) c).1)) ∧
      (resolveTokenToSend s tokenArg = s.accessTokenValue → (performAuth s tokenArg).1 = s) ∧
      ((authChannelStep (resolveTokenToSend s tokenArg) ch).1.joinPayload
        = if isTruthy (resolveTokenToSend s tokenArg) then
            some { accessToken := resolveTokenToSend s tokenArg, version := DEFAULT_VERSION }
          else ch.joinPayload) ∧
      ((authChannelStep (resolveTokenToSend s tokenArg) ch).1.pushedTokens
        = if ch.pushThrows then ch.pushedTokens
          else ch.pushedTokens ++ [resolveTokenToSend s tokenArg]))
    { accessTokenValue := some "old", accessToken := none,
      channels := [{ id := 0, joinPayload := none, pushedTokens := [], pushThrows := true },
        { id := 1, joinPayload := none, pushedTokens := [], pushThrows := false }] }
    (some "new")
    { id := 0, joinPayload := none, pushedTokens := [], pushThrows := true }) :=
  performAuth_amended
    { accessTokenValue := some "old", accessToken := none,
      channels := [{ id := 0, joinPayload := none, pushedTokens := [], pushThrows := true },
        { id := 1, joinPayload := none, pushedTokens := [], pushThrows := false }] }
    (some "new")
    { id := 0, joinPayload := none, pushedTokens := [], pushThrows := true }

/-- C10: constructing a channel runs
`translateRealtimeOptionsToChannelParams` on the caller-supplied
options object, which mutates that object in place — the returned
reference is the argument reference, the cell now holds the config with
the defaults merged under the caller's own entries (a caller entry
replaces the whole default for that key), and for the default
`{ config: {} }` input the stored value observably changes. -/
theorem translate_mutates_caller_options (heap : Nat → RealtimeChannelOptions) (r : Nat) :
    (translateOnHeap heap r).2 = r ∧
    (translateOnHeap heap r).1 r = translateRealtimeOptionsToChannelParams (heap r) ∧
    ((translateOnHeap heap r).1 r).config.broadcast
      = ((heap r).config.broadcast <|> some { ack := some false, self := some false }) ∧
    ((translateOnHeap heap r).1 r).config.presence
      = ((heap r).config.presence <|> some { key := some "", enabled := some false }) ∧
    ((translateOnHeap heap r).1 r).config.isPrivate
      = ((heap r).config.isPrivate <|> some false) ∧
    translateRealtimeOptionsToChannelParams { config := {} }
      ≠ ({ config := {} } : RealtimeChannelOptions) := by
  refine ⟨rfl, ?_, ?_, ?_, ?_, by decide⟩ <;>
    simp [translateOnHeap, translateRealtimeOptionsToChannelParams, defaultChannelConfig,
      Function.update_same]

/-- Witness for C10 at the concrete heap holding `{ config: {} }` in
cell 0. -/
theorem translate_mutates_caller_options_witness :
    ((fun (heap : Nat → RealtimeChannelOptions) (r : Nat) =>
      (translateOnHeap heap r).2 = r ∧
      (translateOnHeap heap r).1 r = translateRealtimeOptionsToChannelParams (heap r) ∧
      ((translateOnHeap heap r).1 r).config.broadcast
        = ((heap r).config.broadcast <|> some { ack := some false, self := some false }) ∧
      ((translateOnHeap heap r).1 r).config.presence
        = ((heap r).config.presence <|> some { key := some "", enabled := some false }) ∧
      ((translateOnHeap heap r).1 r).config.isPrivate
        = ((heap r).config.isPrivate <|> some false) ∧
      translateRealtimeOptionsToChannelParams { config := {} }
        ≠ ({ config := {} } : RealtimeChannelOptions))
    (fun _ => { config := {} }) 0) :=
  translate_mutates_caller_options (fun _ => { config := {} }) 0

end RealtimeSpec
